import Mathlib

/-!
Shallow embedding of `src/app/api/chat/route.ts` (OllamaUI chat endpoint).

The route is a single `POST` handler that
  1. parses the JSON body into `messages`, `selectedModel`, `data`,
  2. strips the `experimental_attachments` field from every message,
  3. if `data.images` is a non-empty list, runs a detection pipeline
     (fetch image, upload to S3, POST to the YOLO service) inside a
     `try`/`catch` that converts every thrown error into an error message,
  4. otherwise uses a fixed default prompt message,
  5. frames the resulting message as a `0:`/`e:`/`d:`-tagged line stream.

External effects (fetch, S3 upload, the detection service call) are modelled
by an environment record whose fields give the outcome of each awaited step:
`Except JsError α` models a JS promise that either resolves or rejects.
All string-valued computations in the route are embedded over `List Char`
(a JS string is a sequence of UTF-16 units; every value handled here is
built from Unicode scalars, which Lean `Char` represents exactly, and the
JS `length` used for the usage estimate is recovered by `jsLength`).
-/

/-- A JSON value, for the open-ended message records in the request body. -/
inductive JsonValue where
  | null
  | bool (b : Bool)
  | num (n : Int)
  | str (s : String)
  | arr (elems : List JsonValue)
  | obj (fields : List (String × JsonValue))

/-- A parsed chat message: an open, ordered mapping of fields
(a JS object keeps insertion order of its string keys). -/
abbrev MsgRecord : Type := List (String × JsonValue)

/-- The optional `data` object of the request body; the route only
reads its optional `images` array. -/
structure RequestData where
  images : Option (List String)
deriving DecidableEq

/-- The parsed JSON request body:
`const { messages, selectedModel, data } = await req.json()`. -/
structure ChatRequest where
  messages : List MsgRecord
  selectedModel : String
  data : Option RequestData

/-- `const { experimental_attachments, ...cleanMessage } = message`:
rest-destructuring copies every own field except the named one,
preserving order. -/
def cleanMessage (m : MsgRecord) : MsgRecord :=
  m.filter (fun kv => !(kv.1 == "experimental_attachments"))

/-- `messages.map((message) => { ... return cleanMessage })`. -/
def cleanedMessages (ms : List MsgRecord) : List MsgRecord :=
  ms.map cleanMessage

/-- `data?.images && data.images.length > 0`: the guard of the detection
branch.  `data?.images` is falsy when `data` is absent or has no `images`
field; an array is truthy, so only the length test remains. -/
def hasImages (req : ChatRequest) : Bool :=
  match req.data with
  | none => false
  | some d =>
    match d.images with
    | none => false
    | some imgs => decide (imgs.length > 0)

/-- A thrown JS value: either an `Error` instance carrying a message,
or any other thrown value (which carries no message). -/
inductive JsError where
  | error (message : String)
  | other
deriving DecidableEq

/-- `error instanceof Error ? error.message : 'Unknown error'`. -/
def jsErrorText : JsError → String
  | .error msg => msg
  | .other => "Unknown error"

/-- The three fields of the YOLO service JSON payload that the route reads. -/
structure DetectionResult where
  detection_count : Nat
  labels : List String
  prediction_uid : String
deriving DecidableEq

/-- The resolved detection-service `fetch`: HTTP status plus the outcome
of `.json()` (which can itself reject). -/
structure PredResponse where
  status : Nat
  json : Except JsError DetectionResult

/-- Outcomes of the awaited external steps of one request:
image fetch (+ blob/arrayBuffer), S3 upload, detection-service call. -/
structure PipelineEnv where
  fetchImage : Except JsError Unit
  upload : Except JsError Unit
  predict : Except JsError PredResponse

/-- `` `uploads/${Date.now()}-image.jpeg` ``: the time-derived storage key. -/
def fileKey (nowMs : Nat) : String :=
  "uploads/" ++ toString nowMs ++ "-image.jpeg"

/-- `Response.ok` of the Fetch API: status in the range 200–299. -/
def respOk (status : Nat) : Bool :=
  decide (200 ≤ status) && decide (status < 300)

/-- The body of the `try` block: fetch the image, upload it, call the
detection service, throw on a non-ok status, parse the JSON body.
`Except.error` models a thrown exception reaching the `catch`. -/
def runDetection (env : PipelineEnv) : Except JsError DetectionResult := do
  let _ ← env.fetchImage
  let _ ← env.upload
  let resp ← env.predict
  if respOk resp.status then
    resp.json
  else
    Except.error (JsError.error ("Prediction API error: " ++ toString resp.status))

/-- The success message template assembled from the detection result. -/
def successMessage (r : DetectionResult) : String :=
  "🔍 **Object Detection Results**\n\n**Detection Count:** "
    ++ toString r.detection_count
    ++ "\n**Detected Objects:** " ++ String.intercalate ", " r.labels
    ++ "\n**Prediction ID:** " ++ r.prediction_uid
    ++ "\n\nI\x27ve analyzed your image and detected "
    ++ toString r.detection_count
    ++ " object(s). The detected objects include: "
    ++ String.intercalate ", " r.labels ++ "."

/-- The `catch` block's message template, embedding the caught error's text. -/
def errorReport (err : JsError) : String :=
  "❌ **Object Detection Error**\n\nSorry, I encountered an error while processing your image: "
    ++ jsErrorText err
    ++ "\n\nPlease make sure the object detection service is running on localhost:8080."

/-- The whole `try { ... } catch (error) { ... }` of the detection branch:
it always produces a message string, never propagating the exception. -/
def detectionPipeline (env : PipelineEnv) : String :=
  match runDetection env with
  | .ok r => successMessage r
  | .error err => errorReport err

/-- `let message = "Please provide an image for object detection."`. -/
def defaultPrompt : String :=
  "Please provide an image for object detection."

/-- The Response Message of a request: the detection pipeline's output
when an image is supplied, the fixed default prompt otherwise. -/
def responseMessage (req : ChatRequest) (env : PipelineEnv) : String :=
  if hasImages req then detectionPipeline env else defaultPrompt

/-! ## Stream framer

`message.split('\n')`, the per-line `0:` chunks, the `e:` and `d:`
trailers, and `controller.close()`. -/

/-- JS `str.split('\n')` over the character sequence: split on every
newline; splitting the empty string yields one empty piece. -/
def splitNl : List Char → List (List Char)
  | [] => [[]]
  | c :: cs =>
    if c = '\n' then
      [] :: splitNl cs
    else
      match splitNl cs with
      | [] => [[c]]
      | l :: ls => (c :: l) :: ls

/-- `const content = i < lines.length - 1 ? line + '\n' : line`:
re-append the newline to every line except the last. -/
def lineContents : List (List Char) → List (List Char)
  | [] => []
  | [l] => [l]
  | l :: ls => (l ++ ['\n']) :: lineContents ls

/-- UTF-16 units of one Unicode scalar: 2 for the supplementary planes. -/
def utf16CharLen (c : Char) : Nat :=
  if c.toNat < 0x10000 then 1 else 2

/-- JS `message.length`: the number of UTF-16 code units of the string. -/
def jsLength (s : String) : Nat :=
  (s.data.map utf16CharLen).sum

/-- Lower-case hex digit of a value below 16 (as in `JSON.stringify`'s
unicode escapes). -/
def hexDigitChar (n : Nat) : Char :=
  if n < 10 then Char.ofNat (48 + n) else Char.ofNat (87 + n)

/-- `JSON.stringify`'s escaping of one character of a string: the named
two-character escapes, `\u00xx` for the remaining control characters,
everything else verbatim. -/
def jsonEscapeChar (c : Char) : List Char :=
  if c = '"' then ['\\', '"']
  else if c = '\\' then ['\\', '\\']
  else if c = '\x08' then ['\\', 'b']
  else if c = '\t' then ['\\', 't']
  else if c = '\n' then ['\\', 'n']
  else if c = '\x0c' then ['\\', 'f']
  else if c = '\x0d' then ['\\', 'r']
  else if c.toNat < 0x20 then
    ['\\', 'u', '0', '0', hexDigitChar (c.toNat / 16), hexDigitChar (c.toNat % 16)]
  else [c]

/-- `JSON.stringify` of a string value: the escaped characters between
double quotes. -/
def jsonEncodeStr (l : List Char) : List Char :=
  '"' :: l.flatMap jsonEscapeChar ++ ['"']

/-- `` `0:${JSON.stringify(content)}\n` ``: one content record of the wire. -/
def encodeContentChunk (l : List Char) : List Char :=
  '0' :: ':' :: jsonEncodeStr l ++ ['\n']

/-- The usage estimate object sent in both trailers. -/
structure UsageInfo where
  promptTokens : Nat
  completionTokens : Nat
deriving DecidableEq

/-- The payload of the `e:` trailer record. -/
structure FinishEvent where
  finishReason : String
  usage : UsageInfo
  isContinued : Bool
deriving DecidableEq

/-- The payload of the `d:` trailer record. -/
structure DoneEvent where
  finishReason : String
  usage : UsageInfo
deriving DecidableEq

/-- The object literal passed to `JSON.stringify` for the `e:` record:
finish reason `"stop"`, prompt tokens fixed at 10, completion tokens
`message.length`, continuation flag `false`. -/
def finishEvent (message : String) : FinishEvent :=
  { finishReason := "stop"
    usage := { promptTokens := 10, completionTokens := jsLength message }
    isContinued := false }

/-- The object literal passed to `JSON.stringify` for the `d:` record. -/
def doneEvent (message : String) : DoneEvent :=
  { finishReason := "stop"
    usage := { promptTokens := 10, completionTokens := jsLength message } }

/-- `JSON.stringify` of the `e:` payload (keys in insertion order). -/
def stringifyFinish (e : FinishEvent) : List Char :=
  ("\x7b\"finishReason\":").data ++ jsonEncodeStr e.finishReason.data
    ++ (",\"usage\":\x7b\"promptTokens\":").data ++ (toString e.usage.promptTokens).data
    ++ (",\"completionTokens\":").data ++ (toString e.usage.completionTokens).data
    ++ ("\x7d,\"isContinued\":").data ++ (if e.isContinued then "true" else "false").data
    ++ ("\x7d").data

/-- `JSON.stringify` of the `d:` payload (keys in insertion order). -/
def stringifyDone (e : DoneEvent) : List Char :=
  ("\x7b\"finishReason\":").data ++ jsonEncodeStr e.finishReason.data
    ++ (",\"usage\":\x7b\"promptTokens\":").data ++ (toString e.usage.promptTokens).data
    ++ (",\"completionTokens\":").data ++ (toString e.usage.completionTokens).data
    ++ ("\x7d\x7d").data

/-- `` `e:${JSON.stringify({...})}\n` ``: the `e:` trailer chunk. -/
def eChunk (message : String) : List Char :=
  'e' :: ':' :: stringifyFinish (finishEvent message) ++ ['\n']

/-- `` `d:${JSON.stringify({...})}\n` ``: the `d:` trailer chunk. -/
def dChunk (message : String) : List Char :=
  'd' :: ':' :: stringifyDone (doneEvent message) ++ ['\n']

/-- All chunks enqueued for one message, in emission order: one `0:`
record per line, then the `e:` record, then the `d:` record. -/
def streamChunks (message : String) : List (List Char) :=
  (lineContents (splitNl message.data)).map encodeContentChunk
    ++ [eChunk message, dChunk message]

/-- One observable action of the `ReadableStream` controller. -/
inductive StreamEvent where
  | enqueue (chunk : List Char)
  | close
deriving DecidableEq

/-- The full trace of the `start(controller)` body: every `enqueue`
in order, then the single `close`. -/
def streamEvents (message : String) : List StreamEvent :=
  (streamChunks message).map StreamEvent.enqueue ++ [StreamEvent.close]

/-- The headers of the returned `Response`. -/
def responseHeaders : List (String × String) :=
  [("Content-Type", "text/plain; charset=utf-8"),
   ("X-Vercel-AI-Data-Stream", "v1")]

/-- The HTTP response: the stream trace plus headers. -/
structure HttpResponse where
  body : List StreamEvent
  headers : List (String × String)
deriving DecidableEq

/-- The whole `POST` handler after JSON parsing: normalization, the
detection branch or default prompt, and the framed streaming response. -/
def handlePOST (req : ChatRequest) (env : PipelineEnv) : HttpResponse :=
  { body := streamEvents (responseMessage req env)
    headers := responseHeaders }

/-- The parsed JSON body before the conversation field is known to be
present: destructuring `{ messages, ... }` yields `undefined` (here
`none`) when the body has no `messages` field. -/
structure RawChatRequest where
  messages : Option (List MsgRecord)
  selectedModel : String
  data : Option RequestData

/-- The TypeError thrown by `messages.map(...)` when `messages` is
`undefined` (absent field); V8's message text. -/
def mapUndefinedError : JsError :=
  JsError.error "TypeError: Cannot read properties of undefined (reading 'map')"

/-- The `POST` handler on the raw parsed body: when the `messages` field
is absent, `messages.map` at the top of the handler throws, nothing
catches it (the `try`/`catch` only wraps the detection chain), and no
response is produced; otherwise the request proceeds as `handlePOST`. -/
def handlePOSTonRaw (raw : RawChatRequest) (env : PipelineEnv) : Except JsError HttpResponse :=
  match raw.messages with
  | none => Except.error mapUndefinedError
  | some ms =>
    Except.ok (handlePOST
      { messages := ms, selectedModel := raw.selectedModel, data := raw.data } env)

/-! ## Decoder used to state the wire round-trip -/

/-- Value of one hex digit (accepting both cases). -/
def hexVal (c : Char) : Option Nat :=
  if 48 ≤ c.toNat ∧ c.toNat ≤ 57 then some (c.toNat - 48)
  else if 97 ≤ c.toNat ∧ c.toNat ≤ 102 then some (c.toNat - 87)
  else if 65 ≤ c.toNat ∧ c.toNat ≤ 70 then some (c.toNat - 55)
  else none

/-- Decode a JSON string body up to (and consuming) the closing quote;
returns the decoded characters and the remainder after the quote. -/
def jsonDecodeAux : List Char → Option (List Char × List Char)
  | [] => none
  | c :: rest =>
    if c = '"' then
      some ([], rest)
    else if c = '\\' then
      match rest with
      | [] => none
      | e :: rest2 =>
        if e = '"' then (jsonDecodeAux rest2).map (fun p => ('"' :: p.1, p.2))
        else if e = '\\' then (jsonDecodeAux rest2).map (fun p => ('\\' :: p.1, p.2))
        else if e = '/' then (jsonDecodeAux rest2).map (fun p => ('/' :: p.1, p.2))
        else if e = 'b' then (jsonDecodeAux rest2).map (fun p => ('\x08' :: p.1, p.2))
        else if e = 'f' then (jsonDecodeAux rest2).map (fun p => ('\x0c' :: p.1, p.2))
        else if e = 'n' then (jsonDecodeAux rest2).map (fun p => ('\n' :: p.1, p.2))
        else if e = 'r' then (jsonDecodeAux rest2).map (fun p => ('\x0d' :: p.1, p.2))
        else if e = 't' then (jsonDecodeAux rest2).map (fun p => ('\t' :: p.1, p.2))
        else if e = 'u' then
          match rest2 with
          | h1 :: h2 :: h3 :: h4 :: rest3 =>
            match hexVal h1, hexVal h2, hexVal h3, hexVal h4 with
            | some a, some b, some c3, some d =>
              (jsonDecodeAux rest3).map
                (fun p => (Char.ofNat (4096 * a + 256 * b + 16 * c3 + d) :: p.1, p.2))
            | _, _, _, _ => none
          | _ => none
        else none
    else
      (jsonDecodeAux rest).map (fun p => (c :: p.1, p.2))

/-- Decode one wire record as a `0:`-tagged content record: strip the
`0:` tag and the opening quote, JSON-decode up to the closing quote,
require the trailing newline.  Any other record decodes to `none`. -/
def contentOfChunk (chunk : List Char) : Option (List Char) :=
  match chunk with
  | '0' :: ':' :: '"' :: rest =>
    match jsonDecodeAux rest with
    | some (s, ['\n']) => some s
    | _ => none
  | _ => none

/-- Substring containment of strings, used to state the "message
contains ..." properties. -/
def strContains (hay needle : String) : Prop :=
  ∃ pre post : String, hay = pre ++ needle ++ post

/-! ## Concrete sample inputs (used by the witness statements) -/

/-- The detection payload of end-to-end scenario A. -/
def sampleDetection : DetectionResult :=
  { detection_count := 2, labels := ["cat", "dog"], prediction_uid := "abc123" }

/-- An environment whose image fetch rejects. -/
def envFetchFail : PipelineEnv :=
  { fetchImage := Except.error (JsError.error "fetch failed")
    upload := Except.ok ()
    predict := Except.error JsError.other }

/-- An environment where every step succeeds and the service answers 200. -/
def envOk : PipelineEnv :=
  { fetchImage := Except.ok ()
    upload := Except.ok ()
    predict := Except.ok { status := 200, json := Except.ok sampleDetection } }

/-- An environment where the service answers HTTP 500. -/
def env500 : PipelineEnv :=
  { fetchImage := Except.ok ()
    upload := Except.ok ()
    predict := Except.ok { status := 500, json := Except.ok sampleDetection } }

/-- A request carrying one image URL. -/
def reqWithImage : ChatRequest :=
  { messages := [], selectedModel := "llava", data := some { images := some ["http://x/img.jpg"] } }

/-- A request with no `data` object at all. -/
def reqNoData : ChatRequest :=
  { messages := [], selectedModel := "llava", data := none }

/-- A sample message record with an attachment field between two others. -/
def sampleMsg : MsgRecord :=
  [("role", JsonValue.str "user"),
   ("experimental_attachments", JsonValue.arr []),
   ("content", JsonValue.str "what is in this image?")]

/-! ## Lemmas about the framer and the codec -/

theorem splitNl_ne_nil : ∀ cs : List Char, splitNl cs ≠ [] := by
  intro cs
  induction cs with
  | nil => simp [splitNl]
  | cons c cs ih =>
    rw [splitNl]
    split
    · simp
    · split
      · simp
      · simp

theorem lineContents_splitNl_flatten : ∀ cs : List Char, (lineContents (splitNl cs)).flatten = cs := by
  intro cs
  induction cs with
  | nil => rfl
  | cons c cs ih =>
    by_cases h : c = '\n'
    · subst h
      rw [splitNl, if_pos rfl]
      rcases hs : splitNl cs with _ | ⟨l, ls⟩
      · exact absurd hs (splitNl_ne_nil cs)
      · rw [hs] at ih
        rw [show lineContents ([] :: l :: ls) = ([] ++ ['\n']) :: lineContents (l :: ls) from rfl]
        simpa using ih
    · rw [splitNl, if_neg h]
      rcases hs : splitNl cs with _ | ⟨l, ls⟩
      · exact absurd hs (splitNl_ne_nil cs)
      · rw [hs] at ih
        cases ls with
        | nil => simpa [lineContents] using ih
        | cons l2 ls2 =>
          rw [show lineContents ((c :: l) :: l2 :: ls2)
                = ((c :: l) ++ ['\n']) :: lineContents (l2 :: ls2) from rfl]
          rw [show lineContents (l :: l2 :: ls2)
                = (l ++ ['\n']) :: lineContents (l2 :: ls2) from rfl] at ih
          simp only [List.flatten_cons] at ih ⊢
          simp [← ih]

theorem hexVal_hexDigitChar : ∀ m : Fin 16, hexVal (hexDigitChar m.val) = some m.val := by
  decide

theorem jsonDecodeAux_quote (rest : List Char) :
    jsonDecodeAux ('"' :: rest) = some ([], rest) := by
  rw [jsonDecodeAux.eq_def]
  simp

theorem jsonDecodeAux_u (h1 h2 h3 h4 : Char) (rest : List Char) :
    jsonDecodeAux ('\\' :: 'u' :: h1 :: h2 :: h3 :: h4 :: rest) =
      match hexVal h1, hexVal h2, hexVal h3, hexVal h4 with
      | some a, some b, some c3, some d =>
        (jsonDecodeAux rest).map (fun p => (Char.ofNat (4096 * a + 256 * b + 16 * c3 + d) :: p.1, p.2))
      | _, _, _, _ => none := by
  simp [jsonDecodeAux]

theorem jsonDecodeAux_plain (c : Char) (rest : List Char) (hq : c ≠ '"') (hb : c ≠ '\\') :
    jsonDecodeAux (c :: rest) = (jsonDecodeAux rest).map (fun p => (c :: p.1, p.2)) := by
  rw [jsonDecodeAux.eq_def]
  simp [hq, hb]

theorem jsonDecodeAux_escapeChar (c : Char) (rest : List Char) :
    jsonDecodeAux (jsonEscapeChar c ++ rest) =
      (jsonDecodeAux rest).map (fun p => (c :: p.1, p.2)) := by
  by_cases h1 : c = '"'
  · subst h1
    rw [show jsonEscapeChar '"' = ['\\', '"'] from by decide]
    rw [show (['\\', '"'] : List Char) ++ rest = '\\' :: '"' :: rest from rfl]
    rw [jsonDecodeAux.eq_def]
    simp
  by_cases h2 : c = '\\'
  · subst h2
    rw [show jsonEscapeChar '\\' = ['\\', '\\'] from by decide]
    rw [show (['\\', '\\'] : List Char) ++ rest = '\\' :: '\\' :: rest from rfl]
    rw [jsonDecodeAux.eq_def]
    simp
  by_cases h3 : c = '\x08'
  · subst h3
    rw [show jsonEscapeChar '\x08' = ['\\', 'b'] from by decide]
    rw [show (['\\', 'b'] : List Char) ++ rest = '\\' :: 'b' :: rest from rfl]
    rw [jsonDecodeAux.eq_def]
    simp
  by_cases h4 : c = '\t'
  · subst h4
    rw [show jsonEscapeChar '\t' = ['\\', 't'] from by decide]
    rw [show (['\\', 't'] : List Char) ++ rest = '\\' :: 't' :: rest from rfl]
    rw [jsonDecodeAux.eq_def]
    simp
  by_cases h5 : c = '\n'
  · subst h5
    rw [show jsonEscapeChar '\n' = ['\\', 'n'] from by decide]
    rw [show (['\\', 'n'] : List Char) ++ rest = '\\' :: 'n' :: rest from rfl]
    rw [jsonDecodeAux.eq_def]
    simp
  by_cases h6 : c = '\x0c'
  · subst h6
    rw [show jsonEscapeChar '\x0c' = ['\\', 'f'] from by decide]
    rw [show (['\\', 'f'] : List Char) ++ rest = '\\' :: 'f' :: rest from rfl]
    rw [jsonDecodeAux.eq_def]
    simp
  by_cases h7 : c = '\x0d'
  · subst h7
    rw [show jsonEscapeChar '\x0d' = ['\\', 'r'] from by decide]
    rw [show (['\\', 'r'] : List Char) ++ rest = '\\' :: 'r' :: rest from rfl]
    rw [jsonDecodeAux.eq_def]
    simp
  by_cases h8 : c.toNat < 0x20
  · have hesc : jsonEscapeChar c =
        ['\\', 'u', '0', '0', hexDigitChar (c.toNat / 16), hexDigitChar (c.toNat % 16)] := by
      simp [jsonEscapeChar, h1, h2, h3, h4, h5, h6, h7, h8]
    rw [hesc]
    rw [show (['\\', 'u', '0', '0', hexDigitChar (c.toNat / 16), hexDigitChar (c.toNat % 16)] : List Char) ++ rest
          = '\\' :: 'u' :: '0' :: '0' :: hexDigitChar (c.toNat / 16) :: hexDigitChar (c.toNat % 16) :: rest from rfl]
    rw [jsonDecodeAux_u]
    have e1 : hexVal '0' = some 0 := by decide
    have e2 : hexVal (hexDigitChar (c.toNat / 16)) = some (c.toNat / 16) := by
      have h := hexVal_hexDigitChar ⟨c.toNat / 16, by omega⟩
      simpa using h
    have e3 : hexVal (hexDigitChar (c.toNat % 16)) = some (c.toNat % 16) := by
      have h := hexVal_hexDigitChar ⟨c.toNat % 16, by omega⟩
      simpa using h
    rw [e1, e2, e3]
    have hval : 4096 * 0 + 256 * 0 + 16 * (c.toNat / 16) + c.toNat % 16 = c.toNat := by omega
    simp only [hval, Char.ofNat_toNat]
  · have hesc : jsonEscapeChar c = [c] := by
      simp [jsonEscapeChar, h1, h2, h3, h4, h5, h6, h7, h8]
    rw [hesc]
    rw [show ([c] : List Char) ++ rest = c :: rest from rfl]
    exact jsonDecodeAux_plain c rest h1 h2

theorem jsonDecodeAux_encode (l t : List Char) :
    jsonDecodeAux (l.flatMap jsonEscapeChar ++ '"' :: t) = some (l, t) := by
  induction l with
  | nil => simpa using jsonDecodeAux_quote t
  | cons c l ih =>
    rw [List.flatMap_cons, List.append_assoc, jsonDecodeAux_escapeChar, ih]
    rfl

theorem contentOfChunk_encode (l : List Char) :
    contentOfChunk (encodeContentChunk l) = some l := by
  have h : encodeContentChunk l = '0' :: ':' :: '"' :: (l.flatMap jsonEscapeChar ++ '"' :: ['\n']) := by
    simp [encodeContentChunk, jsonEncodeStr]
  rw [h]
  rw [show contentOfChunk ('0' :: ':' :: '"' :: (l.flatMap jsonEscapeChar ++ '"' :: ['\n']))
        = (match jsonDecodeAux (l.flatMap jsonEscapeChar ++ '"' :: ['\n']) with
           | some (s, ['\n']) => some s
           | _ => none) from rfl]
  rw [jsonDecodeAux_encode]
  rfl

theorem contentOfChunk_eChunk (m : String) : contentOfChunk (eChunk m) = none := by
  simp [contentOfChunk, eChunk]

theorem contentOfChunk_dChunk (m : String) : contentOfChunk (dChunk m) = none := by
  simp [contentOfChunk, dChunk]

/-! ## Claim theorems -/

/-- C1: for every request carrying an image URL, the detection pipeline
always produces the Response Message and never raises: the result is
either the success report, or — for every exception thrown in the chain —
the error report made of the fixed header, the originating error's message
text (the fallback phrase when the thrown value carries no message), and
the fixed service-availability hint. -/
theorem pipeline_never_raises (req : ChatRequest) (env : PipelineEnv)
    (h : hasImages req = true) :
    responseMessage req env = detectionPipeline env ∧
    ((∃ r, runDetection env = Except.ok r ∧ detectionPipeline env = successMessage r) ∨
     (∃ err, runDetection env = Except.error err ∧
        detectionPipeline env =
          "❌ **Object Detection Error**\n\nSorry, I encountered an error while processing your image: "
            ++ jsErrorText err
            ++ "\n\nPlease make sure the object detection service is running on localhost:8080.")) := by
  constructor
  · simp [responseMessage, h]
  · unfold detectionPipeline
    cases hr : runDetection env with
    | error err => exact Or.inr ⟨err, rfl, rfl⟩
    | ok r => exact Or.inl ⟨r, rfl, rfl⟩

/-- C1 witness: the pipeline outcome at a concrete image request whose
fetch step rejects. -/
theorem pipeline_never_raises_witness :
    responseMessage reqWithImage envFetchFail = detectionPipeline envFetchFail ∧
    ((∃ r, runDetection envFetchFail = Except.ok r ∧
        detectionPipeline envFetchFail = successMessage r) ∨
     (∃ err, runDetection envFetchFail = Except.error err ∧
        detectionPipeline envFetchFail =
          "❌ **Object Detection Error**\n\nSorry, I encountered an error while processing your image: "
            ++ jsErrorText err
            ++ "\n\nPlease make sure the object detection service is running on localhost:8080.")) :=
  pipeline_never_raises reqWithImage envFetchFail (by decide)

/-- C2: wire round-trip — concatenating the JSON-decoded contents of the
`0:`-tagged records of the emitted stream reconstructs the Response
Message exactly, for every message (blank internal lines included). -/
theorem stream_roundtrip (m : String) :
    ((streamChunks m).filterMap contentOfChunk).flatten = m.data := by
  unfold streamChunks
  rw [List.filterMap_append, List.filterMap_map]
  have h1 : contentOfChunk ∘ encodeContentChunk = some := by
    funext l
    exact contentOfChunk_encode l
  rw [h1, List.filterMap_some]
  have h2 : List.filterMap contentOfChunk [eChunk m, dChunk m] = [] := by
    simp [List.filterMap_cons, contentOfChunk_eChunk, contentOfChunk_dChunk]
  rw [h2, List.append_nil]
  exact lineContents_splitNl_flatten m.data

/-- C3: the emitted stream is the `0:` content records, then exactly one
`e:` record, then exactly one `d:` record, then the close — nothing is
emitted after the close (it is the last event), for every message
including the empty one. -/
theorem stream_trailer_shape (m : String) :
    streamEvents m =
      (lineContents (splitNl m.data)).map (fun l => StreamEvent.enqueue (encodeContentChunk l))
        ++ [StreamEvent.enqueue (eChunk m), StreamEvent.enqueue (dChunk m), StreamEvent.close] ∧
    (∀ l ∈ lineContents (splitNl m.data), (encodeContentChunk l).head? = some '0') ∧
    (eChunk m).head? = some 'e' ∧
    (dChunk m).head? = some 'd' ∧
    (streamChunks m).countP (fun c => decide (c.head? = some 'e')) = 1 ∧
    (streamChunks m).countP (fun c => decide (c.head? = some 'd')) = 1 ∧
    (streamEvents m).getLast? = some StreamEvent.close ∧
    (streamEvents m).count StreamEvent.close = 1 := by
  refine ⟨?_, ?_, rfl, rfl, ?_, ?_, ?_, ?_⟩
  · simp [streamEvents, streamChunks]
  · intro l _
    rfl
  · unfold streamChunks
    rw [List.countP_append, List.countP_map]
    have hz : List.countP ((fun c => decide (c.head? = some 'e')) ∘ encodeContentChunk)
        (lineContents (splitNl m.data)) = 0 := by
      rw [List.countP_eq_zero]
      intro l _
      simp [encodeContentChunk]
    rw [hz]
    rfl
  · unfold streamChunks
    rw [List.countP_append, List.countP_map]
    have hz : List.countP ((fun c => decide (c.head? = some 'd')) ∘ encodeContentChunk)
        (lineContents (splitNl m.data)) = 0 := by
      rw [List.countP_eq_zero]
      intro l _
      simp [encodeContentChunk]
    rw [hz]
    rfl
  · unfold streamEvents
    exact List.getLast?_concat _
  · unfold streamEvents
    rw [List.count_append]
    have hz : List.count StreamEvent.close ((streamChunks m).map StreamEvent.enqueue) = 0 := by
      rw [List.count_eq_zero]
      simp
    rw [hz]
    rfl

/-- C4: a request with no `data` object, no `images` field, or an empty
image list gets the fixed default prompt, verbatim. -/
theorem default_prompt_when_no_image (req : ChatRequest) (env : PipelineEnv)
    (h : req.data = none ∨ ∃ d, req.data = some d ∧ (d.images = none ∨ d.images = some [])) :
    responseMessage req env = "Please provide an image for object detection." := by
  have hfalse : hasImages req = false := by
    rcases h with h | ⟨d, hd, h⟩
    · simp [hasImages, h]
    · rcases h with h | h <;> simp [hasImages, hd, h]
  simp [responseMessage, hfalse, defaultPrompt]

/-- C4 witness: the concrete no-`data` request gets the default prompt. -/
theorem default_prompt_when_no_image_witness :
    responseMessage reqNoData envFetchFail = "Please provide an image for object detection." :=
  default_prompt_when_no_image reqNoData envFetchFail (Or.inl rfl)

/-- C5: the trailer payloads carry finish reason `"stop"`, prompt tokens
10, completion tokens equal to the length of the Response Message (its
JS `length`, i.e. UTF-16 units); the `e:` payload carries the
continuation flag `false`, and the `d:` payload duplicates the finish
reason and usage without that flag; both are framed as the `e:` and `d:`
wire records. -/
theorem trailer_metadata (m : String) :
    (finishEvent m).finishReason = "stop" ∧
    (finishEvent m).usage.promptTokens = 10 ∧
    (finishEvent m).usage.completionTokens = jsLength m ∧
    (finishEvent m).isContinued = false ∧
    (doneEvent m).finishReason = "stop" ∧
    (doneEvent m).usage.promptTokens = 10 ∧
    (doneEvent m).usage.completionTokens = jsLength m ∧
    (doneEvent m).usage = (finishEvent m).usage ∧
    eChunk m = 'e' :: ':' :: stringifyFinish (finishEvent m) ++ ['\n'] ∧
    dChunk m = 'd' :: ':' :: stringifyDone (doneEvent m) ++ ['\n'] :=
  ⟨rfl, rfl, rfl, rfl, rfl, rfl, rfl, rfl, rfl, rfl⟩

/-- C6: on every successful pipeline run the Response Message is the
success report, which contains the exact detection count, the labels
joined by `", "`, and the prediction identifier, untruncated. -/
theorem success_message_contents (env : PipelineEnv) (r : DetectionResult)
    (h : runDetection env = Except.ok r) :
    detectionPipeline env = successMessage r ∧
    strContains (detectionPipeline env) (toString r.detection_count) ∧
    strContains (detectionPipeline env) (String.intercalate ", " r.labels) ∧
    strContains (detectionPipeline env) r.prediction_uid := by
  have hm : detectionPipeline env = successMessage r := by
    unfold detectionPipeline
    rw [h]
  refine ⟨hm, ?_, ?_, ?_⟩ <;> rw [hm] <;> unfold strContains successMessage
  · exact ⟨"🔍 **Object Detection Results**\n\n**Detection Count:** ",
      "\n**Detected Objects:** " ++ String.intercalate ", " r.labels
        ++ "\n**Prediction ID:** " ++ r.prediction_uid
        ++ "\n\nI\x27ve analyzed your image and detected " ++ toString r.detection_count
        ++ " object(s). The detected objects include: " ++ String.intercalate ", " r.labels ++ ".",
      by simp [String.append_assoc]⟩
  · exact ⟨"🔍 **Object Detection Results**\n\n**Detection Count:** "
        ++ toString r.detection_count ++ "\n**Detected Objects:** ",
      "\n**Prediction ID:** " ++ r.prediction_uid
        ++ "\n\nI\x27ve analyzed your image and detected " ++ toString r.detection_count
        ++ " object(s). The detected objects include: " ++ String.intercalate ", " r.labels ++ ".",
      by simp [String.append_assoc]⟩
  · exact ⟨"🔍 **Object Detection Results**\n\n**Detection Count:** "
        ++ toString r.detection_count ++ "\n**Detected Objects:** "
        ++ String.intercalate ", " r.labels ++ "\n**Prediction ID:** ",
      "\n\nI\x27ve analyzed your image and detected " ++ toString r.detection_count
        ++ " object(s). The detected objects include: " ++ String.intercalate ", " r.labels ++ ".",
      by simp [String.append_assoc]⟩

/-- C6 witness: scenario A — count 2, labels `cat, dog`, uid `abc123`. -/
theorem success_message_contents_witness :
    detectionPipeline envOk = successMessage sampleDetection ∧
    strContains (detectionPipeline envOk) (toString sampleDetection.detection_count) ∧
    strContains (detectionPipeline envOk) (String.intercalate ", " sampleDetection.labels) ∧
    strContains (detectionPipeline envOk) sampleDetection.prediction_uid :=
  success_message_contents envOk sampleDetection rfl

/-- C7: a non-2xx detection status is converted into a thrown error
carrying the status code, which the enclosing guard renders through the
common error report, so the message mentions the status. -/
theorem non2xx_status_error (env : PipelineEnv) (resp : PredResponse)
    (hf : env.fetchImage = Except.ok ()) (hu : env.upload = Except.ok ())
    (hp : env.predict = Except.ok resp) (hs : respOk resp.status = false) :
    runDetection env
      = Except.error (JsError.error ("Prediction API error: " ++ toString resp.status)) ∧
    detectionPipeline env
      = errorReport (JsError.error ("Prediction API error: " ++ toString resp.status)) ∧
    strContains (detectionPipeline env) (toString resp.status) := by
  have h1 : runDetection env
      = Except.error (JsError.error ("Prediction API error: " ++ toString resp.status)) := by
    unfold runDetection
    rw [hf, hu, hp]
    show (if respOk resp.status = true then resp.json
          else Except.error (JsError.error ("Prediction API error: " ++ toString resp.status)))
        = Except.error (JsError.error ("Prediction API error: " ++ toString resp.status))
    rw [hs]
    simp
  have h2 : detectionPipeline env
      = errorReport (JsError.error ("Prediction API error: " ++ toString resp.status)) := by
    unfold detectionPipeline
    rw [h1]
  refine ⟨h1, h2, ?_⟩
  rw [h2]
  exact ⟨"❌ **Object Detection Error**\n\nSorry, I encountered an error while processing your image: Prediction API error: ",
    "\n\nPlease make sure the object detection service is running on localhost:8080.",
    rfl⟩

/-- C7 witness: scenario B — the service answers HTTP 500. -/
theorem non2xx_status_error_witness :
    runDetection env500
      = Except.error (JsError.error ("Prediction API error: " ++ toString (500 : Nat))) ∧
    detectionPipeline env500
      = errorReport (JsError.error ("Prediction API error: " ++ toString (500 : Nat))) ∧
    strContains (detectionPipeline env500) (toString (500 : Nat)) :=
  non2xx_status_error env500 { status := 500, json := Except.ok sampleDetection }
    rfl rfl rfl rfl

/-- C8 counterexample: the claim fails on an absent conversation list —
a parsed body with no `messages` field makes `messages.map` throw the
TypeError, nothing catches it, and the request does not proceed to a
response. -/
theorem normalizer_rejects_absent_messages :
    handlePOSTonRaw { messages := none, selectedModel := "llava", data := none } envFetchFail
      = Except.error mapUndefinedError := rfl

/-- C8 (amended): the normalizer raises no validation error for any
parsed body whose conversation field is present — the handler produces
the framed response, mapping over an empty conversation no-ops, and an
absent `data`, absent `images`, or empty image list just selects the
default-prompt branch; but when the conversation field itself is absent,
the `map` throws an uncaught TypeError and no response is produced. -/
theorem normalizer_best_effort (raw : RawChatRequest) (env : PipelineEnv) :
    (∀ ms, raw.messages = some ms →
      handlePOSTonRaw raw env
        = Except.ok { body := streamEvents (responseMessage
                        { messages := ms, selectedModel := raw.selectedModel,
                          data := raw.data } env),
                      headers := responseHeaders }) ∧
    cleanedMessages [] = [] ∧
    (raw.data = none →
      hasImages { messages := [], selectedModel := raw.selectedModel, data := raw.data } = false) ∧
    (∀ d, raw.data = some d → d.images = none →
      hasImages { messages := [], selectedModel := raw.selectedModel, data := raw.data } = false) ∧
    (∀ d, raw.data = some d → d.images = some [] →
      hasImages { messages := [], selectedModel := raw.selectedModel, data := raw.data } = false) ∧
    (raw.messages = none → handlePOSTonRaw raw env = Except.error mapUndefinedError) := by
  refine ⟨?_, rfl, ?_, ?_, ?_, ?_⟩
  · intro ms h
    unfold handlePOSTonRaw
    rw [h]
    rfl
  · intro h
    simp [hasImages, h]
  · intro d h hi
    simp [hasImages, h, hi]
  · intro d h hi
    simp [hasImages, h, hi]
  · intro h
    unfold handlePOSTonRaw
    rw [h]

/-- C8 witness: a concrete body with a present (empty) conversation and
an empty image list no-ops through normalization and still gets its
response. -/
theorem normalizer_best_effort_witness :
    handlePOSTonRaw { messages := some [], selectedModel := "m", data := some { images := some [] } } envFetchFail
      = Except.ok { body := streamEvents (responseMessage
                      { messages := [], selectedModel := "m",
                        data := some { images := some [] } } envFetchFail),
                    headers := responseHeaders } ∧
    cleanedMessages [] = [] ∧
    hasImages { messages := [], selectedModel := "m", data := some { images := some [] } } = false :=
  ⟨(normalizer_best_effort { messages := some [], selectedModel := "m", data := some { images := some [] } } envFetchFail).1 [] rfl,
   (normalizer_best_effort { messages := some [], selectedModel := "m", data := some { images := some [] } } envFetchFail).2.1,
   (normalizer_best_effort { messages := some [], selectedModel := "m", data := some { images := some [] } } envFetchFail).2.2.2.2.1
      { images := some [] } rfl rfl⟩

theorem lookup_cleanMessage_att (m : MsgRecord) :
    List.lookup "experimental_attachments" (cleanMessage m) = none := by
  induction m with
  | nil => rfl
  | cons kv rest ih =>
    obtain ⟨k, v⟩ := kv
    simp only [cleanMessage, List.filter_cons] at ih ⊢
    by_cases h : k = "experimental_attachments"
    · subst h
      simpa using ih
    · have hbeq : (k == "experimental_attachments") = false := by
        simp [h]
      have hbeq2 : ("experimental_attachments" == k) = false := by
        simp [Ne.symm h]
      simp [hbeq, List.lookup, hbeq2, ih]

theorem lookup_cleanMessage_other (m : MsgRecord) (k : String)
    (hk : k ≠ "experimental_attachments") :
    List.lookup k (cleanMessage m) = List.lookup k m := by
  induction m with
  | nil => rfl
  | cons kv rest ih =>
    obtain ⟨k1, v⟩ := kv
    simp only [cleanMessage, List.filter_cons] at ih ⊢
    by_cases h : k1 = "experimental_attachments"
    · subst h
      have hbeq : (k == "experimental_attachments") = false := by
        simp [hk]
      simp [List.lookup, hbeq, ih]
    · have hbeq : (k1 == "experimental_attachments") = false := by
        simp [h]
      simp only [hbeq, Bool.not_false, if_true]
      simp only [List.lookup]
      cases hbeq2 : k == k1 <;> simp [hbeq2, ih]

/-- C9: normalization removes exactly the `experimental_attachments`
field of every message record: looking that key up in the cleaned record
yields nothing, every other key maps to the same value as before, and a
field survives cleaning precisely when it is an original field with a
different key (order and multiplicity preserved by the filter). -/
theorem clean_message_frame (m : MsgRecord) :
    List.lookup "experimental_attachments" (cleanMessage m) = none ∧
    (∀ k, k ≠ "experimental_attachments" →
      List.lookup k (cleanMessage m) = List.lookup k m) ∧
    (∀ kv : String × JsonValue,
      kv ∈ cleanMessage m ↔ kv ∈ m ∧ kv.1 ≠ "experimental_attachments") := by
  refine ⟨lookup_cleanMessage_att m, fun k hk => lookup_cleanMessage_other m k hk, ?_⟩
  intro kv
  simp [cleanMessage, List.mem_filter]

/-- C9 witness: cleaning a concrete record keeps `role` and `content`
and drops the attachment field. -/
theorem clean_message_frame_witness :
    List.lookup "experimental_attachments" (cleanMessage sampleMsg) = none ∧
    List.lookup "content" (cleanMessage sampleMsg) = List.lookup "content" sampleMsg ∧
    (("role", JsonValue.str "user") ∈ cleanMessage sampleMsg ↔
      ("role", JsonValue.str "user") ∈ sampleMsg ∧
        ("role", JsonValue.str "user").1 ≠ "experimental_attachments") :=
  ⟨(clean_message_frame sampleMsg).1,
   (clean_message_frame sampleMsg).2.1 "content" (by decide),
   (clean_message_frame sampleMsg).2.2 ("role", JsonValue.str "user")⟩

/-- C10: the streamed response is independent of the conversation and of
the selected model — two request bodies with the same `data` (and the
same external-service behaviour) produce identical responses, because
the cleaned conversation and the model selector are never used after
parsing. -/
theorem response_ignores_messages (r1 r2 : ChatRequest) (env : PipelineEnv)
    (h : r1.data = r2.data) :
    handlePOST r1 env = handlePOST r2 env := by
  have hh : hasImages r1 = hasImages r2 := by
    unfold hasImages
    rw [h]
  simp [handlePOST, responseMessage, hh]

/-- C10 witness: two concrete requests differing in both the messages
and the selected model, with the same image data, get byte-identical
responses. -/
theorem response_ignores_messages_witness :
    handlePOST { messages := [sampleMsg], selectedModel := "llava",
                 data := some { images := some ["http://x/img.jpg"] } } envFetchFail
      = handlePOST { messages := [], selectedModel := "llama3",
                     data := some { images := some ["http://x/img.jpg"] } } envFetchFail :=
  response_ignores_messages _ _ envFetchFail rfl
